import Mathlib

/-!
Verification of the DILI (drug-induced liver injury) simulator core from
src/streamlit_app.py. Real-valued quantities are embedded as rationals, which
represent the decimal literals of the source exactly. The ODE right-hand side
liver_dili_model, the scoring and classification logic, the dominant-pathway
selection and the structural-flag heuristics are translated directly from the
source; the numerical integrator (scipy odeint) is an external collaborator and
is abstracted as a function parameter where the run handler needs it.
-/

namespace LiverTox

/-- The 11-component state vector, in the index order of the source:
drug, tox_met, gsh, ros, alt, ast, mito, chol, apop, necro, fib. -/
structure State where
  drug : ℚ
  tox_met : ℚ
  gsh : ℚ
  ros : ℚ
  alt : ℚ
  ast : ℚ
  mito : ℚ
  chol : ℚ
  apop : ℚ
  necro : ℚ
  fib : ℚ
deriving DecidableEq

/-- The ODE right-hand side from the source (def liver_dili_model): given the
state y, time t, amplifier amp, dose and the antioxidant flag, return the
derivative vector. The source body never reads t or dose. -/
def liver_dili_model (y : State) (t amp dose : ℚ) (is_antioxidant : Bool) : State :=
  let k_cyp : ℚ := 0.04
  let k_bio : ℚ := 0.03
  let k_gsh : ℚ := 0.025
  let k_ros : ℚ := 0.03 * amp
  let k_mito : ℚ := 0.015 * amp
  let k_clear : ℚ := 0.01
  let k_apop : ℚ := 0.012 * amp
  let k_necro : ℚ := 0.008 * amp
  let k_chol : ℚ := 0.006 * amp
  let k_fib : ℚ := 0.005 * amp
  let antioxidant_clearance : ℚ := if is_antioxidant then 0.015 else 0.0
  { drug := -k_cyp * y.drug
    tox_met := k_cyp * y.drug * k_bio - k_gsh * min y.tox_met y.gsh
    gsh := -k_gsh * min y.tox_met y.gsh
    ros := k_ros * y.tox_met - (k_clear + antioxidant_clearance) * y.ros
    alt := 0.012 * y.ros
    ast := 0.012 * y.ros
    mito := k_mito * (y.ros + y.tox_met)
    chol := k_chol * y.tox_met
    apop := k_apop * y.ros + 0.01 * y.mito
    necro := k_necro * y.ros
    fib := k_fib * (y.apop + y.necro) }

/-- The static explanation lookup from the source (def interpret_toxicity):
a dictionary get with a generic fallback string. -/
def interpret_toxicity (marker : String) : String :=
  if marker = "ROS" then
    "High oxidative stress was observed, which can trigger widespread cellular damage."
  else if marker = "ALT" then
    "Elevated ALT suggests liver cell leakage or membrane injury."
  else if marker = "Mito Stress" then
    "Mitochondrial dysfunction can lead to energy depletion and trigger apoptosis."
  else if marker = "Apoptosis" then
    "Programmed cell death was a major outcome, often seen in early DILI."
  else if marker = "Necrosis" then
    "Cell death through necrosis indicates severe, uncontrolled damage."
  else if marker = "Fibrosis" then
    "Chronic damage may result in fibrotic tissue formation."
  else if marker = "Cholestasis" then
    "Bile flow disruption was prominent, which can lead to jaundice or hepatic inflammation."
  else
    "Toxic pathway contribution was observed."

/-- The toxicity amplifier heuristic from the run handler: 2.5 when the
lowercased SMILES string contains one of the substrings cl, br, no2, epoxide,
and 1.0 otherwise. Strings are embedded as character lists; the Python
substring test x in s is the infix relation. -/
def amp (smiles : List Char) : ℚ :=
  let smiles_lower := smiles.map Char.toLower
  if "cl".toList <:+: smiles_lower ∨ "br".toList <:+: smiles_lower ∨
      "no2".toList <:+: smiles_lower ∨ "epoxide".toList <:+: smiles_lower then
    2.5
  else
    1.0

/-- The antioxidant name list from the source. -/
def antioxidants : List (List Char) :=
  ["luteolin".toList, "quercetin".toList, "resveratrol".toList,
    "curcumin".toList, "naringenin".toList]

/-- The antioxidant flag from the run handler: whether any antioxidant name is
a substring of the lowercased SMILES string. -/
def is_antiox (smiles_lower : List Char) : Bool :=
  antioxidants.any (fun n => decide (n <:+: smiles_lower))

/-- The initial state of the run handler: y0 = [dose, 0, 1.0, 0, 0, 0, 0, 0, 0, 0, 0]. -/
def y0 (dose : ℚ) : State :=
  { drug := dose, tox_met := 0, gsh := 1.0, ros := 0, alt := 0, ast := 0,
    mito := 0, chol := 0, apop := 0, necro := 0, fib := 0 }

/-- The named terminal markers of the run handler (dict tox_markers), in the
insertion order of the source. -/
def tox_markers (final : State) : List (String × ℚ) :=
  [("ROS", final.ros), ("ALT", final.alt), ("Mito Stress", final.mito),
    ("Cholestasis", final.chol), ("Apoptosis", final.apop),
    ("Necrosis", final.necro), ("Fibrosis", final.fib)]

/-- Python max over an iterable with a key: start from the first element and
replace the current best only when a later element is strictly greater, so the
first maximal element wins ties. -/
def pyMaxKey (best : String × ℚ) : List (String × ℚ) → String × ℚ
  | [] => best
  | p :: rest => pyMaxKey (if best.2 < p.2 then p else best) rest

/-- The dominant marker pair: max(tox_markers, key=tox_markers.get) of the
source, returning the pair rather than only the name. -/
def dominantPair (final : State) : String × ℚ :=
  match tox_markers final with
  | [] => ("", 0)
  | h :: rest => pyMaxKey h rest

/-- The dominant marker name from the run handler. -/
def dominant (final : State) : String :=
  (dominantPair final).1

/-- The DILI score of the run handler: the weighted sum over the terminal
state, with the weight set of the source (Variant B). -/
def score (final : State) : ℚ :=
  0.20 * final.ros + 0.13 * final.alt + 0.13 * final.mito +
    0.13 * final.apop + 0.13 * final.necro + 0.18 * final.fib + 0.10 * final.chol

/-- The risk tier of the run handler: LOW below 0.6, MODERATE below 1.5,
HIGH otherwise. -/
def risk (s : ℚ) : String :=
  if s < 0.6 then "LOW" else if s < 1.5 then "MODERATE" else "HIGH"

/-- The error type named by the specification for invalid configurations. The
source defines no such error and raises nothing. -/
inductive CoreError where
  | configurationError
  | integrationError
deriving DecidableEq

/-- The per-compound body of the Run Simulation handler, translated from the
source: derive the amplifier and the antioxidant flag from the SMILES string,
build the initial state, integrate (scipy odeint is external and is passed in
as the odeint argument, applied to the model, the initial state, the duration
and the model arguments amp, dose, is_antiox), then score, classify and pick
the dominant pathway of the terminal state. The source performs no validation
of dose, duration or sample count and has no failing path, so the result is
always ok. -/
def run_simulation
    (odeint : (State → ℚ → ℚ → ℚ → Bool → State) → State → ℚ → ℚ → ℚ → Bool → State)
    (dose duration : ℚ) (smiles : List Char) :
    Except CoreError (ℚ × String × String) :=
  let smiles_lower := smiles.map Char.toLower
  let a := amp smiles
  let antiox := is_antiox smiles_lower
  let final := odeint liver_dili_model (y0 dose) duration a dose antiox
  Except.ok (score final, risk (score final), dominant final)

/-- C1: the risk score from a terminal state is the weighted sum
0.20 ROS + 0.13 ALT + 0.13 mito + 0.13 apoptosis + 0.13 necrosis +
0.18 fibrosis + 0.10 cholestasis, and these seven weights sum to exactly 1. -/
theorem score_weighted_sum (final : State) :
    score final =
      0.20 * final.ros + 0.13 * final.alt + 0.13 * final.mito +
        0.13 * final.apop + 0.13 * final.necro + 0.18 * final.fib +
        0.10 * final.chol ∧
    (0.20 + 0.13 + 0.13 + 0.13 + 0.13 + 0.18 + 0.10 : ℚ) = 1 :=
  ⟨rfl, by norm_num⟩

/-- C2: classification returns LOW below 0.6, MODERATE on [0.6, 1.5), HIGH from
1.5 on; in particular exactly 0.6 is MODERATE and exactly 1.5 is HIGH. -/
theorem risk_threshold_tiers (s : ℚ) :
    (s < 0.6 → risk s = "LOW") ∧
    (0.6 ≤ s → s < 1.5 → risk s = "MODERATE") ∧
    (1.5 ≤ s → risk s = "HIGH") ∧
    risk 0.6 = "MODERATE" ∧ risk 1.5 = "HIGH" := by
  refine ⟨?_, ?_, ?_, ?_, ?_⟩
  · intro h
    rw [risk, if_pos h]
  · intro h1 h2
    rw [risk, if_neg (not_lt.mpr h1), if_pos h2]
  · intro h
    rw [risk, if_neg (not_lt.mpr (le_trans (by norm_num) h)), if_neg (not_lt.mpr h)]
  · rw [risk, if_neg (by norm_num), if_pos (by norm_num)]
  · rw [risk, if_neg (by norm_num), if_neg (by norm_num)]

/-- Witness for C2 at the concrete scores 0.3, 1.0 and 2.0. -/
theorem risk_threshold_tiers_witness :
    risk 0.3 = "LOW" ∧ risk 1.0 = "MODERATE" ∧ risk 2.0 = "HIGH" :=
  ⟨(risk_threshold_tiers 0.3).1 (by norm_num),
    (risk_threshold_tiers 1.0).2.1 (by norm_num) (by norm_num),
    (risk_threshold_tiers 2.0).2.2.1 (by norm_num)⟩

/-- C3: the GSH derivative is -0.025 * min(metabolite, GSH), the metabolite
derivative subtracts exactly the same detox flux, and on nonnegative
components the flux is at most the scarcer of metabolite and GSH. -/
theorem gsh_detox_min_cap (y : State) (t a dose : ℚ) (b : Bool) :
    (liver_dili_model y t a dose b).gsh = -0.025 * min y.tox_met y.gsh ∧
    (liver_dili_model y t a dose b).tox_met =
      0.04 * y.drug * 0.03 - 0.025 * min y.tox_met y.gsh ∧
    (0 ≤ y.tox_met → 0 ≤ y.gsh →
      0.025 * min y.tox_met y.gsh ≤ min y.tox_met y.gsh) := by
  refine ⟨rfl, rfl, fun h1 h2 => ?_⟩
  have hm : (0 : ℚ) ≤ min y.tox_met y.gsh := le_min h1 h2
  linarith

/-- Witness for C3 at a state with metabolite 2 and GSH 1. -/
theorem gsh_detox_min_cap_witness :
    0.025 * min (2 : ℚ) 1 ≤ min (2 : ℚ) 1 :=
  (gsh_detox_min_cap ⟨1, 2, 1, 0, 0, 0, 0, 0, 0, 0, 0⟩ 0 1 1 false).2.2
    (by norm_num) (by norm_num)

/-- C4: the ALT and AST derivatives are always equal, both 0.012 * ROS, for
every state, time, amplifier, dose and antioxidant flag. -/
theorem alt_ast_identity (y : State) (t a dose : ℚ) (b : Bool) :
    (liver_dili_model y t a dose b).alt = (liver_dili_model y t a dose b).ast ∧
    (liver_dili_model y t a dose b).alt = 0.012 * y.ros :=
  ⟨rfl, rfl⟩

/-- C7: the drug derivative equals -0.04 * drug, independent of everything
else, and is nonpositive whenever the drug component is nonnegative. -/
theorem drug_pure_decay (y : State) (t a dose : ℚ) (b : Bool) :
    (liver_dili_model y t a dose b).drug = -0.04 * y.drug ∧
    (0 ≤ y.drug → (liver_dili_model y t a dose b).drug ≤ 0) := by
  refine ⟨rfl, fun h => ?_⟩
  have he : (liver_dili_model y t a dose b).drug = -0.04 * y.drug := rfl
  rw [he]
  linarith

/-- Witness for C7 at the initial state of dose 1. -/
theorem drug_pure_decay_witness :
    (liver_dili_model (y0 1) 0 1 1 false).drug ≤ 0 :=
  (drug_pure_decay (y0 1) 0 1 1 false).2 (by norm_num [y0])

/-- C9: the initial state has every component 0 except drug = dose and
GSH = 1.0. -/
theorem y0_initial_components (dose : ℚ) :
    (y0 dose).drug = dose ∧ (y0 dose).gsh = 1.0 ∧ (y0 dose).tox_met = 0 ∧
    (y0 dose).ros = 0 ∧ (y0 dose).alt = 0 ∧ (y0 dose).ast = 0 ∧
    (y0 dose).mito = 0 ∧ (y0 dose).chol = 0 ∧ (y0 dose).apop = 0 ∧
    (y0 dose).necro = 0 ∧ (y0 dose).fib = 0 :=
  ⟨rfl, rfl, rfl, rfl, rfl, rfl, rfl, rfl, rfl, rfl, rfl⟩

/-- C10: the dynamics is autonomous and dose-independent: the derivative
vector depends only on the state, the amplifier and the antioxidant flag, not
on the time or dose arguments. -/
theorem model_autonomous (y : State) (t1 t2 a dose1 dose2 : ℚ) (b : Bool) :
    liver_dili_model y t1 a dose1 b = liver_dili_model y t2 a dose2 b :=
  rfl

/-- C6: the amplifier is one of 1.0 or 2.5, and it is 2.5 exactly when the
lowercased SMILES string contains one of the substrings cl, br, no2, epoxide. -/
theorem amp_structural_flags (smiles : List Char) :
    (amp smiles = 2.5 ∨ amp smiles = 1.0) ∧
    (amp smiles = 2.5 ↔
      ("cl".toList <:+: smiles.map Char.toLower ∨
        "br".toList <:+: smiles.map Char.toLower ∨
        "no2".toList <:+: smiles.map Char.toLower ∨
        "epoxide".toList <:+: smiles.map Char.toLower)) := by
  simp only [amp]
  split_ifs with h
  · exact ⟨Or.inl rfl, fun _ => h, fun _ => rfl⟩
  · refine ⟨Or.inr rfl, fun he => ?_, fun hc => absurd hc h⟩
    norm_num at he

/-- Counterexample to C5: at dose 0 (which is ≤ 0) the run handler does not
fail with a ConfigurationError, it returns a successful result, because the
source performs no configuration validation at all. The external integrator is
instantiated with the function returning the initial state. -/
theorem run_simulation_no_config_error_counterexample :
    (0 : ℚ) ≤ 0 ∧
    run_simulation (fun _ s _ _ _ _ => s) 0 48 [] =
      Except.ok (0, "LOW", "ROS") := by
  refine ⟨le_refl 0, ?_⟩
  show Except.ok (score (y0 0), risk (score (y0 0)), dominant (y0 0)) =
    Except.ok (0, "LOW", "ROS")
  have h1 : score (y0 0) = 0 := by norm_num [score, y0]
  have h2 : risk 0 = "LOW" := by norm_num [risk]
  rw [h1, h2]
  rfl

/-- C5 (amended): the run handler performs no configuration validation and
never produces a ConfigurationError: for every integrator, dose, duration and
SMILES input it returns a successful result. -/
theorem run_simulation_always_ok
    (odeint : (State → ℚ → ℚ → ℚ → Bool → State) → State → ℚ → ℚ → ℚ → Bool → State)
    (dose duration : ℚ) (smiles : List Char) :
    ∃ r, run_simulation odeint dose duration smiles = Except.ok r :=
  ⟨_, rfl⟩

/-- Python max with a key function keeps the first maximal element: the result
bounds every element of the list from above, and sits at a position all of
whose predecessors are strictly smaller. -/
theorem pyMaxKey_first_max (l : List (String × ℚ)) : ∀ best : String × ℚ,
    (∀ q ∈ best :: l, q.2 ≤ (pyMaxKey best l).2) ∧
    ∃ l1 l2, best :: l = l1 ++ pyMaxKey best l :: l2 ∧
      ∀ q ∈ l1, q.2 < (pyMaxKey best l).2 := by
  induction l with
  | nil =>
    intro best
    refine ⟨fun q hq => ?_, [], [], rfl, fun q hq => absurd hq (List.not_mem_nil q)⟩
    rcases List.mem_cons.mp hq with rfl | hq
    · exact le_refl _
    · exact absurd hq (List.not_mem_nil q)
  | cons p rest ih =>
    intro best
    simp only [pyMaxKey]
    by_cases h : best.2 < p.2
    · rw [if_pos h]
      obtain ⟨hle, l1, l2, heq, hlt⟩ := ih p
      have hp : p.2 ≤ (pyMaxKey p rest).2 := hle p (List.mem_cons_self p rest)
      refine ⟨fun q hq => ?_, best :: l1, l2, ?_, fun q hq => ?_⟩
      · rcases List.mem_cons.mp hq with rfl | hq
        · exact le_of_lt (lt_of_lt_of_le h hp)
        · exact hle q hq
      · rw [List.cons_append, ← heq]
      · rcases List.mem_cons.mp hq with rfl | hq
        · exact lt_of_lt_of_le h hp
        · exact hlt q hq
    · rw [if_neg h]
      push_neg at h
      obtain ⟨hle, l1, l2, heq, hlt⟩ := ih best
      have hb : best.2 ≤ (pyMaxKey best rest).2 := hle best (List.mem_cons_self best rest)
      constructor
      · intro q hq
        rcases List.mem_cons.mp hq with rfl | hq
        · exact hb
        rcases List.mem_cons.mp hq with rfl | hq
        · exact le_trans h hb
        · exact hle q (List.mem_cons_of_mem best hq)
      · cases l1 with
        | nil =>
          simp only [List.nil_append] at heq
          injection heq with hbest hrest
          refine ⟨[], p :: rest, ?_, fun q hq => absurd hq (List.not_mem_nil q)⟩
          rw [List.nil_append, ← hbest]
        | cons b l1 =>
          rw [List.cons_append] at heq
          injection heq with hbest hrest
          have hblt : best.2 < (pyMaxKey best rest).2 := by
            have hm := hlt b (List.mem_cons_self b l1)
            rwa [← hbest] at hm
          refine ⟨best :: p :: l1, l2, ?_, fun q hq => ?_⟩
          · rw [List.cons_append, List.cons_append, ← hrest]
          · rcases List.mem_cons.mp hq with rfl | hq
            · exact hblt
            rcases List.mem_cons.mp hq with rfl | hq
            · exact lt_of_le_of_lt h hblt
            · exact hlt q (List.mem_cons_of_mem b hq)

/-- C8: the dominant pathway is the first-occurrence maximum of the seven
named terminal markers, and the explanation lookup returns the mapped static
string for each of the seven names and the generic fallback for any other
name. -/
theorem dominant_first_max_and_explanations (final : State) :
    (∀ q ∈ tox_markers final, q.2 ≤ (dominantPair final).2) ∧
    (∃ l1 l2, tox_markers final = l1 ++ dominantPair final :: l2 ∧
      ∀ q ∈ l1, q.2 < (dominantPair final).2) ∧
    dominant final = (dominantPair final).1 ∧
    interpret_toxicity "ROS" =
      "High oxidative stress was observed, which can trigger widespread cellular damage." ∧
    interpret_toxicity "ALT" =
      "Elevated ALT suggests liver cell leakage or membrane injury." ∧
    interpret_toxicity "Mito Stress" =
      "Mitochondrial dysfunction can lead to energy depletion and trigger apoptosis." ∧
    interpret_toxicity "Apoptosis" =
      "Programmed cell death was a major outcome, often seen in early DILI." ∧
    interpret_toxicity "Necrosis" =
      "Cell death through necrosis indicates severe, uncontrolled damage." ∧
    interpret_toxicity "Fibrosis" =
      "Chronic damage may result in fibrotic tissue formation." ∧
    interpret_toxicity "Cholestasis" =
      "Bile flow disruption was prominent, which can lead to jaundice or hepatic inflammation." ∧
    (∀ s, s ∉ (tox_markers final).map Prod.fst →
      interpret_toxicity s = "Toxic pathway contribution was observed.") := by
  obtain ⟨hle, l1, l2, heq, hlt⟩ :=
    pyMaxKey_first_max
      [("ALT", final.alt), ("Mito Stress", final.mito), ("Cholestasis", final.chol),
        ("Apoptosis", final.apop), ("Necrosis", final.necro), ("Fibrosis", final.fib)]
      ("ROS", final.ros)
  refine ⟨hle, ⟨l1, l2, heq, hlt⟩, rfl, rfl, rfl, rfl, rfl, rfl, rfl, rfl, ?_⟩
  intro s hs
  simp only [tox_markers, List.map_cons, List.map_nil, List.mem_cons,
    List.not_mem_nil, or_false] at hs
  push_neg at hs
  obtain ⟨h1, h2, h3, h4, h5, h6, h7⟩ := hs
  simp [interpret_toxicity, h1, h2, h3, h4, h5, h6, h7]

/-- Witness for C8 at the initial state of dose 1 and the unmapped name Drug. -/
theorem dominant_first_max_witness :
    (y0 1).ros ≤ (dominantPair (y0 1)).2 ∧
    interpret_toxicity "Drug" = "Toxic pathway contribution was observed." := by
  obtain ⟨hle, -, -, -, -, -, -, -, -, -, hf⟩ :=
    dominant_first_max_and_explanations (y0 1)
  exact ⟨hle ("ROS", (y0 1).ros) (by decide), hf "Drug" (by decide)⟩

end LiverTox
